import Mathlib

/-!
Verification of the engine-resolution and connection-lifecycle subsystem of the
firebolt python SDK (`src/firebolt/async_db/connection.py` together with
`src/firebolt/client/client.py`), as a shallow embedding in Lean 4.

HTTP traffic is abstracted: each network request the code may issue is a
parameter of type `ReqResult`, holding either a transport failure or a
response (status code plus a parsed-body outcome).  Python exceptions become
an explicit `PyExc` type and the functions return `Except PyExc _`,
mirroring the `try`/`except` structure of the source statement by statement.
-/

/-- Python exception values that can flow through the connection module.
`httpStatusError` / `requestError` come from httpx, `jsonDecodeError` from
the json module, `keyError` / `runtimeError` from the language runtime; the
rest are the SDK's own exception classes (`firebolt.common.exception`).
None of the SDK exception classes subclasses any of the library exception
classes, so an `except` clause listing library classes never catches them. -/
inductive PyExc where
  | httpStatusError (status : Nat)
  | requestError
  | jsonDecodeError
  | keyError
  | runtimeError
  | accountNotFoundError (name : String)
  | fireboltEngineError (msg : String)
  | fireboltDatabaseError (msg : String)
  | interfaceError (msg : String)
  | configurationError (msg : String)
  | connectionClosedError (msg : String)
  | authenticationError (msg : String)
deriving Repr, DecidableEq

/-- Short rendering of an exception, standing in for Python's `f"{e}"`. -/
def PyExc.render : PyExc → String
  | .httpStatusError s => "HTTPStatusError " ++ toString s
  | .requestError => "RequestError"
  | .jsonDecodeError => "JSONDecodeError"
  | .keyError => "KeyError"
  | .runtimeError => "RuntimeError"
  | .accountNotFoundError n => "AccountNotFoundError " ++ n
  | .fireboltEngineError m => m
  | .fireboltDatabaseError m => m
  | .interfaceError m => m
  | .configurationError m => m
  | .connectionClosedError m => m
  | .authenticationError m => m

/-- Outcome of parsing a response body and extracting the fields the code
reads: `invalid` means `response.json()` raises `JSONDecodeError`,
`missingKey` means a `[...]` field access raises `KeyError`, and `value a`
means the extraction chain succeeds with `a`. -/
inductive Body (α : Type) where
  | invalid
  | missingKey
  | value (a : α)
deriving Repr, DecidableEq

/-- Outcome of one HTTP request: a transport-level failure (httpx
`RequestError`) or a response carrying a status code and a body. -/
inductive ReqResult (α : Type) where
  | netError
  | response (status : Nat) (body : Body α)
deriving Repr, DecidableEq

instance {ε α : Type} [DecidableEq ε] [DecidableEq α] : DecidableEq (Except ε α)
  | .error e, .error f =>
    if h : e = f then isTrue (by rw [h])
    else isFalse (by intro hc; cases hc; exact h rfl)
  | .error _, .ok _ => isFalse (by intro h; cases h)
  | .ok _, .error _ => isFalse (by intro h; cases h)
  | .ok a, .ok b =>
    if h : a = b then isTrue (by rw [h])
    else isFalse (by intro hc; cases hc; exact h rfl)

/-- Model of `await client.get(...)`: a transport failure raises `RequestError`,
otherwise the response is available. -/
def awaitGet {α : Type} : ReqResult α → Except PyExc (Nat × Body α)
  | .netError => .error .requestError
  | .response s b => .ok (s, b)

/-- httpx `Response.raise_for_status`: raises `HTTPStatusError` unless the
status code is a 2xx success. -/
def raise_for_status (status : Nat) : Except PyExc Unit :=
  if 200 ≤ status ∧ status < 300 then .ok () else .error (.httpStatusError status)

/-- Model of the `response.json()[...]` extraction chain over a parsed-body outcome. -/
def jsonField {α : Type} : Body α → Except PyExc α
  | .invalid => .error .jsonDecodeError
  | .missingKey => .error .keyError
  | .value a => .ok a

/-- Embedding of `FireboltClientMixin`/`AsyncClient.account_id`
(`src/firebolt/client/client.py`): GET the account-by-name endpoint; 404 is
`AccountNotFoundError` for the requested name, any other non-2xx status is
raised via `raise_for_status`, and on success the `"id"` field is returned. -/
def account_id (r : ReqResult String) (account_name : String) :
    Except PyExc String := do
  let (s, b) ← awaitGet r
  if s = 404 then throw (.accountNotFoundError account_name)
  raise_for_status s
  jsonField b

/-- Embedding of `_get_engine_endpoint` (`src/firebolt/async_db/connection.py`): GET the
engine-by-id endpoint, `raise_for_status`, then read
`json()["engine"]["endpoint"]`. -/
def _get_engine_endpoint (byId : ReqResult String) :
    Except PyExc String := do
  let (s, b) ← awaitGet byId
  raise_for_status s
  jsonField b

/-- The `try` block of `_resolve_engine_url`: resolve the account id, GET the
engine-by-name endpoint, `raise_for_status`, extract
`json()["engine_id"]["engine_id"]`, then fetch that engine's endpoint. -/
def _resolve_engine_url_attempt (account_name : String)
    (acc : ReqResult String) (byName : ReqResult Nat)
    (byId : ReqResult String) : Except PyExc String := do
  let _account_id ← account_id acc account_name
  let (s, b) ← awaitGet byName
  raise_for_status s
  let _engine_id ← jsonField b
  _get_engine_endpoint byId

/-- The `except` clauses of `_resolve_engine_url`: an `HTTPStatusError` with
status 404 becomes `FireboltEngineError`, any other `HTTPStatusError`, a
`JSONDecodeError`, `RequestError` or `RuntimeError` becomes
`InterfaceError`; every other exception propagates unchanged. -/
def resolveEngineCatch (engine_name : String) :
    Except PyExc String → Except PyExc String
  | .ok v => .ok v
  | .error e =>
    match e with
    | .httpStatusError s =>
      if s ≠ 404 then
        .error (.interfaceError
          ("Unable to retrieve engine endpoint: " ++ PyExc.render (.httpStatusError s) ++ "."))
      else
        .error (.fireboltEngineError
          ("Firebolt engine " ++ engine_name ++ " does not exist."))
    | .jsonDecodeError => .error (.interfaceError
        ("Unable to retrieve engine endpoint: " ++ PyExc.render .jsonDecodeError ++ "."))
    | .requestError => .error (.interfaceError
        ("Unable to retrieve engine endpoint: " ++ PyExc.render .requestError ++ "."))
    | .runtimeError => .error (.interfaceError
        ("Unable to retrieve engine endpoint: " ++ PyExc.render .runtimeError ++ "."))
    | e => .error e

/-- Embedding of `_resolve_engine_url` (`src/firebolt/async_db/connection.py`): the
`try` body guarded by the two `except` clauses. -/
def _resolve_engine_url (engine_name account_name : String)
    (acc : ReqResult String) (byName : ReqResult Nat)
    (byId : ReqResult String) : Except PyExc String :=
  resolveEngineCatch engine_name
    (_resolve_engine_url_attempt account_name acc byName byId)

/-- One `"node"` object of the account-bindings response: the
`engine_is_default` flag and the `["id"]["engine_id"]` field. -/
structure BindingNode where
  engine_is_default : Bool
  engine_id : Nat
deriving Repr, DecidableEq

/-- The `try` block of `_get_database_default_engine_url`: resolve the
account id, GET database-by-name and extract the database id, GET the
bindings, filter the nodes flagged `engine_is_default`, raise
`FireboltDatabaseError` when none remain, else fetch the endpoint of the
first default binding's engine. -/
def _get_database_default_engine_url_attempt (database account_name : String)
    (acc : ReqResult String) (byDb : ReqResult Nat)
    (byBindings : ReqResult (List BindingNode))
    (byId : ReqResult String) : Except PyExc String := do
  let _account_id ← account_id acc account_name
  let (s1, b1) ← awaitGet byDb
  raise_for_status s1
  let _database_id ← jsonField b1
  let (s2, b2) ← awaitGet byBindings
  raise_for_status s2
  let edges ← jsonField b2
  let default_engines_bindings := edges.filter (fun b => b.engine_is_default)
  match default_engines_bindings with
  | [] => throw (.fireboltDatabaseError
      ("Database " ++ database ++ " has no default engines"))
  | _first :: _ => _get_engine_endpoint byId

/-- The `except` clause of `_get_database_default_engine_url`:
`JSONDecodeError`, `RequestError`, `RuntimeError`, `HTTPStatusError` and
`KeyError` are all wrapped into `InterfaceError`; every other exception
(notably `FireboltDatabaseError` and `AccountNotFoundError`) propagates. -/
def dbDefaultCatch : Except PyExc String → Except PyExc String
  | .ok v => .ok v
  | .error e =>
    match e with
    | .jsonDecodeError | .requestError | .runtimeError
    | .httpStatusError _ | .keyError =>
      .error (.interfaceError
        ("Unable to retrieve default engine endpoint: " ++ PyExc.render e ++ "."))
    | e => .error e

/-- Embedding of `_get_database_default_engine_url` (`src/firebolt/async_db/connection.py`):
the `try` body guarded by its single `except` clause. -/
def _get_database_default_engine_url (database account_name : String)
    (acc : ReqResult String) (byDb : ReqResult Nat)
    (byBindings : ReqResult (List BindingNode))
    (byId : ReqResult String) : Except PyExc String :=
  dbDefaultCatch
    (_get_database_default_engine_url_attempt database account_name
      acc byDb byBindings byId)

/-- Python truthiness of an optional string argument: `None` and the empty
string are falsy, every other string is truthy. -/
def truthy : Option String → Bool
  | none => false
  | some s => s ≠ ""

/-- The authentication object produced by `_get_auth`: either the
`(username, password)` tuple or `Auth.from_token(access_token)`. -/
inductive AuthT where
  | password (username pw : String)
  | token (t : String)
deriving Repr, DecidableEq

/-- Embedding of `_get_auth` (`src/firebolt/async_db/connection.py`): with no (truthy)
access token, both username and password are required; with an access
token, neither username nor password may be given. -/
def _get_auth (username password access_token : Option String) :
    Except PyExc AuthT :=
  if ¬ truthy access_token then
    if ¬ truthy username ∨ ¬ truthy password then
      .error (.configurationError
        ("Neither username/password nor access_token are provided. Provide one"
          ++ " to authenticate"))
    else .ok (.password (username.getD "") (password.getD ""))
  else if truthy username ∨ truthy password then
    .error (.configurationError
      ("Either username/password and access_token are provided. Provide only one"
        ++ " to authenticate"))
  else .ok (.token (access_token.getD ""))

/-- Embedding of `_validate_engine_name_and_url` (`src/firebolt/async_db/connection.py`):
rejects the call when both `engine_name` and `engine_url` are truthy. -/
def _validate_engine_name_and_url (engine_name engine_url : Option String) :
    Except PyExc Unit :=
  if truthy engine_name ∧ truthy engine_url then
    .error (.configurationError
      "Both engine_name and engine_url are provided. Provide only one to connect.")
  else .ok ()

/-- Modelled from the spec: `fix_url_schema` lives in
`firebolt.common.util`, which is not under `src/`; per the spec (§4.3), if
the given endpoint lacks an `http(s)://` prefix, `https://` is prepended. -/
def fix_url_schema (url : String) : String :=
  if url.startsWith "http://" ∨ url.startsWith "https://" then url
  else "https://" ++ url

/-- All HTTP traffic a single `connect` call may trigger: the responses the
mock backend would give on each endpoint the resolvers touch. -/
structure ResolveWorld where
  acc : ReqResult String
  byName : ReqResult Nat
  byDb : ReqResult Nat
  byBindings : ReqResult (List BindingNode)
  byId : ReqResult String
deriving Repr, DecidableEq

/-- The data `connect_inner` hands to the `Connection` constructor. -/
structure ConnArgs where
  engine_url : String
  database : String
  auth : AuthT
  api_endpoint : String
deriving Repr, DecidableEq

/-- Embedding of `connect_inner` (`src/firebolt/async_db/connection.py`,
`async_connect_factory`): require a truthy database, validate the engine
selectors, build the auth object, normalize the api endpoint schema, then
resolve the engine url — database-default path when neither selector is
truthy, by-name path when `engine_name` is truthy, else the explicit
`engine_url` — and construct the connection from the schema-normalized
result. -/
def connect_inner (database username password access_token
    engine_name engine_url account_name : Option String)
    (api_endpoint : String) (w : ResolveWorld) : Except PyExc ConnArgs := do
  if ¬ truthy database then
    throw (.configurationError "database name is required to connect.")
  _validate_engine_name_and_url engine_name engine_url
  let auth ← _get_auth username password access_token
  let api_endpoint := fix_url_schema api_endpoint
  let resolved_url ←
    if ¬ truthy engine_name ∧ ¬ truthy engine_url then
      _get_database_default_engine_url (database.getD "")
        (account_name.getD "None") w.acc w.byDb w.byBindings w.byId
    else if truthy engine_name then
      _resolve_engine_url (engine_name.getD "") (account_name.getD "None")
        w.acc w.byName w.byId
    else pure (engine_url.getD "")
  .ok ⟨fix_url_schema resolved_url, database.getD "", auth, api_endpoint⟩

/-- One cursor object, as far as the lifecycle is concerned: its identity
and its own closed flag. -/
structure CursorSt where
  cid : Nat
  is_closed : Bool
deriving Repr, DecidableEq

/-- State of a `BaseConnection` (`src/firebolt/async_db/connection.py`):
every cursor ever created through it (with each cursor's closed flag), the
`_cursors` tracking list (cursor identities, in registration order), whether
`self._client.aclose()` has completed, and the `_is_closed` flag. -/
structure ConnSt where
  next_id : Nat
  created : List CursorSt
  tracked : List Nat
  client_closed : Bool
  is_closed : Bool
deriving Repr, DecidableEq

/-- Embedding of `BaseConnection._cursor`: raise `ConnectionClosedError` when the
connection is closed, otherwise construct a cursor, append it to
`_cursors` and return it. -/
def BaseConnection_cursor (s : ConnSt) : Except PyExc (Nat × ConnSt) :=
  if s.is_closed then
    .error (.connectionClosedError "Unable to create cursor: connection closed")
  else
    .ok (s.next_id,
      { s with
        next_id := s.next_id + 1
        created := s.created ++ [⟨s.next_id, false⟩]
        tracked := s.tracked ++ [s.next_id] })

/-- Embedding of `BaseConnection._remove_cursor`: `self._cursors.remove(cursor)` with the
`ValueError` swallowed — remove the first occurrence, silently a no-op when
the cursor is absent.  `List.erase` has exactly this behavior. -/
def _remove_cursor (s : ConnSt) (cid : Nat) : ConnSt :=
  { s with tracked := s.tracked.erase cid }

/-- Modelled from the spec: `Cursor.close` lives in
`firebolt.async_db.cursor`, which is not under `src/`.  Per the spec (§3,
§6, §7) it marks the cursor closed and removes it from the parent
connection's tracked set; it is idempotent and never raises, so closing an
already-closed cursor is a silent no-op. -/
def cursor_close (s : ConnSt) (cid : Nat) : ConnSt :=
  _remove_cursor
    { s with
      created := s.created.map
        (fun c => if c.cid = cid then { c with is_closed := true } else c) }
    cid

/-- The `for c in cursors: c.close()` loop of `BaseConnection._aclose`,
run over a snapshot of the tracked list. -/
def close_cursors (s : ConnSt) (snapshot : List Nat) : ConnSt :=
  snapshot.foldl cursor_close s

/-- Observable side effects of one `_aclose` run, in execution order. -/
inductive CloseEv where
  | cursorClose (cid : Nat)
  | clientClose
  | setClosedFlag
deriving Repr, DecidableEq

/-- Embedding of `BaseConnection._aclose` with its effect trace: return immediately when
already closed; otherwise snapshot `self._cursors[:]`, close every cursor
of the snapshot, await `self._client.aclose()`, and set `_is_closed` last. -/
def BaseConnection_aclose_tr (s : ConnSt) : ConnSt × List CloseEv :=
  if s.is_closed then (s, [])
  else
    let snapshot := s.tracked
    let s1 := close_cursors s snapshot
    ({ s1 with client_closed := true, is_closed := true },
      snapshot.map CloseEv.cursorClose ++ [CloseEv.clientClose, CloseEv.setClosedFlag])

/-- Embedding of `BaseConnection._aclose`, state part only. -/
def BaseConnection_aclose (s : ConnSt) : ConnSt :=
  (BaseConnection_aclose_tr s).1

/-- The prefix of an open-connection `_aclose` run up to its only suspension
point, the `await self._client.aclose()` statement: the snapshot is taken
and every snapshotted cursor is closed, but the closed flag is not yet set. -/
def aclose_before_suspension (s : ConnSt) : ConnSt :=
  close_cursors s s.tracked

/-- The remainder of the `_aclose` run after the suspension point: the
client teardown completes and `_is_closed` is set. -/
def aclose_after_suspension (s : ConnSt) : ConnSt :=
  { s with client_closed := true, is_closed := true }

/-- A cooperative interleaving of `_aclose` with a concurrent task: while
`_aclose` is suspended awaiting the client teardown, the other task calls
`connection.cursor()`; then `_aclose` resumes and finishes. -/
def aclose_raced_by_cursor (s : ConnSt) : Except PyExc (Nat × ConnSt) :=
  match BaseConnection_cursor (aclose_before_suspension s) with
  | .error e => .error e
  | .ok (cid, s2) => .ok (cid, aclose_after_suspension s2)

/-- Embedding of `BaseConnection.commit`: raises when closed, otherwise does nothing. -/
def BaseConnection_commit (s : ConnSt) : Except PyExc Unit :=
  if s.is_closed then
    .error (.connectionClosedError "Unable to commit: connection closed")
  else .ok ()

/-- A bearer token together with its absolute expiry time. -/
structure Token where
  value : String
  expires_at : Nat
deriving Repr, DecidableEq

/-- Modelled from the spec: the persistent token store
(`firebolt.common.token_storage`, not under `src/`) maps a credential
identity to a cached token record; `get`/`set` are the only operations the
auth flow uses (§3, §6). -/
structure TokenStore where
  records : List (String × Token)
deriving Repr, DecidableEq

/-- Read the record cached for a credential identity, if any. -/
def TokenStore.read (st : TokenStore) (identity : String) : Option Token :=
  (st.records.find? (fun r => r.1 = identity)).map (fun r => r.2)

/-- Overwrite the record cached for a credential identity. -/
def TokenStore.write (st : TokenStore) (identity : String) (t : Token) :
    TokenStore :=
  ⟨(identity, t) :: st.records.filter (fun r => r.1 ≠ identity)⟩

/-- Modelled from the spec: the Auth State Machine instance
(`firebolt.client.auth`, not under `src/`): the credential identity, the
caching switch, and the currently held token (§4.1). -/
structure AuthMachine where
  identity : String
  use_token_cache : Bool
  current : Option Token
deriving Repr, DecidableEq

/-- Outcome of one credential exchange against the auth endpoint. -/
inductive ExchangeResult where
  | success (value : String) (ttl : Nat)
  | failure (status_text : String)
deriving Repr, DecidableEq

/-- Modelled from the spec: the refresh arm of `get_token` (§4.1): with
caching enabled, a non-expired persisted record is adopted without a network
exchange; otherwise the credential exchange runs, a failure is an
`AuthenticationError`, and a success computes `expires_at = now + ttl`,
persists the record only when caching is enabled, and holds the token. -/
def auth_refresh (m : AuthMachine) (now margin : Nat) (store : TokenStore)
    (exchange : ExchangeResult) :
    Except PyExc (String × AuthMachine × TokenStore) :=
  match (if m.use_token_cache then store.read m.identity else none) with
  | some t =>
    if now + margin < t.expires_at then
      .ok (t.value, { m with current := some t }, store)
    else auth_exchange_step m now margin store exchange
  | none => auth_exchange_step m now margin store exchange
where
  /-- The credential-exchange step shared by both refresh arms. -/
  auth_exchange_step (m : AuthMachine) (now _margin : Nat)
      (store : TokenStore) (exchange : ExchangeResult) :
      Except PyExc (String × AuthMachine × TokenStore) :=
    match exchange with
    | .failure status_text => .error (.authenticationError status_text)
    | .success v ttl =>
      let tok : Token := ⟨v, now + ttl⟩
      .ok (v, { m with current := some tok },
        if m.use_token_cache then store.write m.identity tok else store)

/-- Modelled from the spec: `get_token` (§4.1): a held, non-expired token is
returned as-is; otherwise the machine refreshes via the store and/or a
credential exchange. -/
def get_token (m : AuthMachine) (now margin : Nat) (store : TokenStore)
    (exchange : ExchangeResult) :
    Except PyExc (String × AuthMachine × TokenStore) :=
  match m.current with
  | some t =>
    if now + margin < t.expires_at then .ok (t.value, m, store)
    else auth_refresh m now margin store exchange
  | none => auth_refresh m now margin store exchange

theorem truthy_none : truthy none = false := rfl

theorem truthy_some (s : String) : truthy (some s) = decide (s ≠ "") := rfl

theorem truthy_empty : truthy (some "") = false := rfl

/-- The credential combinations `_get_auth` accepts: exactly one of
username+password or access_token (in the Python-truthiness sense). -/
def valid_credentials (username password access_token : Option String) : Bool :=
  (truthy username && truthy password && !truthy access_token) ||
    (truthy access_token && !truthy username && !truthy password)

theorem get_auth_invalid (u p t : Option String)
    (h : valid_credentials u p t = false) :
    ∃ m, _get_auth u p t = .error (.configurationError m) := by
  cases hu : truthy u <;> cases hp : truthy p <;> cases ht : truthy t <;>
    simp [valid_credentials, hu, hp, ht] at h ⊢ <;>
    simp [_get_auth, hu, hp, ht]

/-- C5: every credential-argument combination other than exactly one of
username+password or access_token makes `connect` fail with
`ConfigurationError`, for every possible network world — so the failure is
decided before any network call. -/
theorem connect_invalid_credentials_config_error
    (database u p t en eu an : Option String) (api : String) (w : ResolveWorld)
    (h : valid_credentials u p t = false) :
    ∃ m, connect_inner database u p t en eu an api w =
      .error (.configurationError m) := by
  by_cases hdb : truthy database = true
  · by_cases hv : truthy en = true ∧ truthy eu = true
    · exact ⟨"Both engine_name and engine_url are provided. Provide only one to connect.",
        by simp [connect_inner, hdb, hv.1, hv.2, _validate_engine_name_and_url,
          Bind.bind, Except.bind, Pure.pure, Except.pure]⟩
    · obtain ⟨m, hm⟩ := get_auth_invalid u p t h
      exact ⟨m, by simp [connect_inner, hdb, _validate_engine_name_and_url, hv, hm,
        Bind.bind, Except.bind, Pure.pure, Except.pure]⟩
  · have hdb' : truthy database = false := by simpa using hdb
    exact ⟨"database name is required to connect.",
      by simp [connect_inner, hdb', Bind.bind, Except.bind, Pure.pure, Except.pure]⟩

/-- C5 witness: username without password is rejected at a concrete input. -/
theorem connect_invalid_credentials_config_error_witness :
    valid_credentials (some "u") none none = false ∧
    ∃ m, connect_inner (some "db") (some "u") none none none none none "api.io"
      ⟨.netError, .netError, .netError, .netError, .netError⟩ =
      .error (.configurationError m) :=
  ⟨by decide,
    connect_invalid_credentials_config_error (some "db") (some "u") none none
      none none none "api.io" ⟨.netError, .netError, .netError, .netError, .netError⟩
      (by decide)⟩

/-- C6: supplying both a truthy engine_name and a truthy engine_url makes
`connect` fail with `ConfigurationError`, whatever the other arguments and
whatever the network would answer. -/
theorem connect_both_engine_selectors_config_error
    (database u p t en eu an : Option String) (api : String) (w : ResolveWorld)
    (hen : truthy en = true) (heu : truthy eu = true) :
    ∃ m, connect_inner database u p t en eu an api w =
      .error (.configurationError m) := by
  by_cases hdb : truthy database = true
  · exact ⟨"Both engine_name and engine_url are provided. Provide only one to connect.",
      by simp [connect_inner, hdb, hen, heu, _validate_engine_name_and_url,
        Bind.bind, Except.bind, Pure.pure, Except.pure]⟩
  · have hdb' : truthy database = false := by simpa using hdb
    exact ⟨"database name is required to connect.",
      by simp [connect_inner, hdb', Bind.bind, Except.bind, Pure.pure, Except.pure]⟩

/-- C6 witness: both selectors given concretely, valid everything else. -/
theorem connect_both_engine_selectors_config_error_witness :
    truthy (some "e1") = true ∧ truthy (some "https://x.io") = true ∧
    ∃ m, connect_inner (some "db") (some "u") (some "p") none (some "e1")
      (some "https://x.io") none "api.io"
      ⟨.netError, .netError, .netError, .netError, .netError⟩ =
      .error (.configurationError m) :=
  ⟨by decide, by decide,
    connect_both_engine_selectors_config_error (some "db") (some "u") (some "p")
      none (some "e1") (some "https://x.io") none "api.io"
      ⟨.netError, .netError, .netError, .netError, .netError⟩
      (by decide) (by decide)⟩

/-- C10: the engine-selector gate tests Python truthiness, not presence.
With one selector the empty string and the other non-empty, no
both-selectors `ConfigurationError` is raised and the empty selector is
treated as absent (the explicit-url path, resp. the by-name path, is
taken); with both selectors empty, connect takes the
database-default-engine path. -/
theorem engine_selector_truthiness_gate
    (database u p an : Option String) (api url en : String) (w : ResolveWorld)
    (hdb : truthy database = true) (hu : truthy u = true) (hp : truthy p = true) :
    (_validate_engine_name_and_url (some "") (some url) = .ok () ∧
      _validate_engine_name_and_url (some en) (some "") = .ok ()) ∧
    (url ≠ "" → connect_inner database u p none (some "") (some url) an api w =
      .ok ⟨fix_url_schema url, database.getD "", .password (u.getD "") (p.getD ""),
        fix_url_schema api⟩) ∧
    (en ≠ "" → connect_inner database u p none (some en) (some "") an api w =
      Except.map
        (fun r => ⟨fix_url_schema r, database.getD "",
          .password (u.getD "") (p.getD ""), fix_url_schema api⟩)
        (_resolve_engine_url en (an.getD "None") w.acc w.byName w.byId)) ∧
    (connect_inner database u p none (some "") (some "") an api w =
      Except.map
        (fun r => ⟨fix_url_schema r, database.getD "",
          .password (u.getD "") (p.getD ""), fix_url_schema api⟩)
        (_get_database_default_engine_url (database.getD "") (an.getD "None")
          w.acc w.byDb w.byBindings w.byId)) := by
  refine ⟨⟨by simp [_validate_engine_name_and_url, truthy_empty],
    by simp [_validate_engine_name_and_url, truthy_empty]⟩, ?_, ?_, ?_⟩
  · intro hurl
    simp [connect_inner, hdb, hu, hp, _validate_engine_name_and_url, _get_auth,
      truthy_empty, truthy_some, truthy_none, hurl, Bind.bind, Except.bind,
      Pure.pure, Except.pure]
  · intro hen
    cases hres : _resolve_engine_url en (an.getD "None") w.acc w.byName w.byId <;>
      simp [connect_inner, hdb, hu, hp, _validate_engine_name_and_url, _get_auth,
        truthy_empty, truthy_some, truthy_none, hen, hres, Bind.bind, Except.bind,
        Pure.pure, Except.pure, Except.map]
  · cases hres : _get_database_default_engine_url (database.getD "") (an.getD "None")
        w.acc w.byDb w.byBindings w.byId <;>
      simp [connect_inner, hdb, hu, hp, _validate_engine_name_and_url, _get_auth,
        truthy_empty, truthy_some, truthy_none, hres, Bind.bind, Except.bind,
        Pure.pure, Except.pure, Except.map]

/-- C10 witness: concrete connect calls exercising all four clauses. -/
theorem engine_selector_truthiness_gate_witness :
    truthy (some "db") = true ∧
    ((_validate_engine_name_and_url (some "") (some "x.io") = .ok () ∧
       _validate_engine_name_and_url (some "e1") (some "") = .ok ()) ∧
     ("x.io" ≠ "" → connect_inner (some "db") (some "u") (some "p") none (some "")
        (some "x.io") none "api.io" ⟨.netError, .netError, .netError, .netError, .netError⟩ =
        .ok ⟨fix_url_schema "x.io", (some "db").getD "",
          .password ((some "u").getD "") ((some "p").getD ""), fix_url_schema "api.io"⟩) ∧
     ("e1" ≠ "" → connect_inner (some "db") (some "u") (some "p") none (some "e1")
        (some "") none "api.io" ⟨.netError, .netError, .netError, .netError, .netError⟩ =
        Except.map
          (fun r => ⟨fix_url_schema r, (some "db").getD "",
            .password ((some "u").getD "") ((some "p").getD ""), fix_url_schema "api.io"⟩)
          (_resolve_engine_url "e1" ((none : Option String).getD "None")
            ReqResult.netError ReqResult.netError ReqResult.netError)) ∧
     (connect_inner (some "db") (some "u") (some "p") none (some "") (some "") none
        "api.io" ⟨.netError, .netError, .netError, .netError, .netError⟩ =
        Except.map
          (fun r => ⟨fix_url_schema r, (some "db").getD "",
            .password ((some "u").getD "") ((some "p").getD ""), fix_url_schema "api.io"⟩)
          (_get_database_default_engine_url ((some "db").getD "")
            ((none : Option String).getD "None") ReqResult.netError ReqResult.netError
            ReqResult.netError ReqResult.netError))) :=
  ⟨by decide,
    engine_selector_truthiness_gate (some "db") (some "u") (some "p") none
      "api.io" "x.io" "e1" ⟨.netError, .netError, .netError, .netError, .netError⟩
      (by decide) (by decide) (by decide)⟩

/-- The exception classes listed by the `except` clauses of
`_resolve_engine_url`. -/
def caught_by_resolve : PyExc → Bool
  | .httpStatusError _ => true
  | .jsonDecodeError => true
  | .requestError => true
  | .runtimeError => true
  | _ => false

/-- Whether a resolution outcome is an `InterfaceError`. -/
def is_interface_error : Except PyExc String → Bool
  | .error (.interfaceError _) => true
  | _ => false

/-- C2 counterexample: with authentication and the named-engine lookup both
succeeding, a 404 on the engine-endpoint fetch — an HTTP-status failure that
is not on the named-engine lookup — raises `FireboltEngineError`, not
`InterfaceError`, because the 404 handler guards the whole `try` block. -/
theorem resolve_engine_url_endpoint_404_counterexample :
    _resolve_engine_url "e1" "a" (.response 200 (.value "aid"))
      (.response 200 (.value 1)) (.response 404 .invalid) =
      .error (.fireboltEngineError "Firebolt engine e1 does not exist.") ∧
    is_interface_error
      (_resolve_engine_url "e1" "a" (.response 200 (.value "aid"))
        (.response 200 (.value 1)) (.response 404 .invalid)) = false := by decide

/-- C2 (amended): after successful account resolution, a 404
`HTTPStatusError` from either the named-engine lookup or the subsequent
engine-endpoint fetch raises `FireboltEngineError` naming the engine, while
every non-404 HTTP-status, network, or JSON-decode failure in those lookups
raises `InterfaceError` wrapping the cause. -/
theorem resolve_engine_url_error_mapping (en an aid : String) (acc : ReqResult String)
    (hacc : account_id acc an = .ok aid) :
    (∀ b byId, _resolve_engine_url en an acc (.response 404 b) byId =
      .error (.fireboltEngineError ("Firebolt engine " ++ en ++ " does not exist."))) ∧
    (∀ eid b, _resolve_engine_url en an acc (.response 200 (.value eid)) (.response 404 b) =
      .error (.fireboltEngineError ("Firebolt engine " ++ en ++ " does not exist."))) ∧
    (∀ byId, _resolve_engine_url en an acc .netError byId =
      .error (.interfaceError
        ("Unable to retrieve engine endpoint: " ++ PyExc.render .requestError ++ "."))) ∧
    (∀ byId, _resolve_engine_url en an acc (.response 200 .invalid) byId =
      .error (.interfaceError
        ("Unable to retrieve engine endpoint: " ++ PyExc.render .jsonDecodeError ++ "."))) ∧
    (∀ byName byId e, _resolve_engine_url_attempt an acc byName byId = .error e →
      caught_by_resolve e = true → (∀ s, e = .httpStatusError s → s ≠ 404) →
      _resolve_engine_url en an acc byName byId =
        .error (.interfaceError
          ("Unable to retrieve engine endpoint: " ++ e.render ++ "."))) := by
  refine ⟨?_, ?_, ?_, ?_, ?_⟩
  · intro b byId
    simp [_resolve_engine_url, _resolve_engine_url_attempt, hacc, awaitGet,
      raise_for_status, resolveEngineCatch, Bind.bind, Except.bind]
  · intro eid b
    simp [_resolve_engine_url, _resolve_engine_url_attempt, _get_engine_endpoint,
      hacc, awaitGet, raise_for_status, resolveEngineCatch, jsonField,
      Bind.bind, Except.bind]
  · intro byId
    simp [_resolve_engine_url, _resolve_engine_url_attempt, hacc, awaitGet,
      raise_for_status, resolveEngineCatch, Bind.bind, Except.bind]
  · intro byId
    simp [_resolve_engine_url, _resolve_engine_url_attempt, hacc, awaitGet,
      raise_for_status, resolveEngineCatch, jsonField, Bind.bind, Except.bind]
  · intro byName byId e hatt hcaught h404
    rw [_resolve_engine_url, hatt]
    cases e <;> simp_all [caught_by_resolve, resolveEngineCatch]

/-- C2 witness: the 404 arm and a 500 arm at concrete inputs. -/
theorem resolve_engine_url_error_mapping_witness :
    account_id (.response 200 (.value "aid")) "a" = .ok "aid" ∧
    _resolve_engine_url "e1" "a" (.response 200 (.value "aid"))
      (.response 404 .invalid) (.response 200 (.value "ep")) =
      .error (.fireboltEngineError ("Firebolt engine " ++ "e1" ++ " does not exist.")) :=
  ⟨by decide,
    (resolve_engine_url_error_mapping "e1" "a" "aid"
      (.response 200 (.value "aid")) (by decide)).1 .invalid (.response 200 (.value "ep"))⟩

/-- The exception classes listed by the single `except` clause of
`_get_database_default_engine_url` — unlike the by-name path it also
catches `KeyError`, and it has no 404 carve-out. -/
def caught_by_db_default : PyExc → Bool
  | .httpStatusError _ => true
  | .jsonDecodeError => true
  | .requestError => true
  | .runtimeError => true
  | .keyError => true
  | _ => false

/-- C3 counterexample: with two bindings flagged default the lookup does not
fail — it resolves the first default binding's engine — so the code requires
at least one default binding, not exactly one. -/
theorem db_default_two_bindings_counterexample :
    ([⟨true, 1⟩, ⟨true, 2⟩] : List BindingNode).filter
      (fun b => b.engine_is_default) = [⟨true, 1⟩, ⟨true, 2⟩] ∧
    _get_database_default_engine_url "db" "a" (.response 200 (.value "aid"))
      (.response 200 (.value 7))
      (.response 200 (.value [⟨true, 1⟩, ⟨true, 2⟩]))
      (.response 200 (.value "ep")) = .ok "ep" := by decide

/-- C3 (amended): database-default-engine resolution filters the bindings to
those flagged default and requires at least one: with zero it raises
FireboltDatabaseError ("Database {name} has no default engines"); with one
or more it resolves the endpoint of the first default binding's engine; and
every HTTP-status (404 included), network, JSON-decode or key-lookup
failure caught in the chain is uniformly wrapped as InterfaceError. -/
theorem db_default_engine_error_mapping (db an aid : String) (acc : ReqResult String)
    (hacc : account_id acc an = .ok aid) :
    (∀ did edges byId, edges.filter (fun b => b.engine_is_default) = [] →
      _get_database_default_engine_url db an acc (.response 200 (.value did))
        (.response 200 (.value edges)) byId =
      .error (.fireboltDatabaseError ("Database " ++ db ++ " has no default engines"))) ∧
    (∀ did edges b rest ep, edges.filter (fun b => b.engine_is_default) = b :: rest →
      _get_database_default_engine_url db an acc (.response 200 (.value did))
        (.response 200 (.value edges)) (.response 200 (.value ep)) = .ok ep) ∧
    (∀ byDb byBind byId e,
      _get_database_default_engine_url_attempt db an acc byDb byBind byId = .error e →
      caught_by_db_default e = true →
      _get_database_default_engine_url db an acc byDb byBind byId =
        .error (.interfaceError
          ("Unable to retrieve default engine endpoint: " ++ e.render ++ "."))) ∧
    (∀ did b byId, _get_database_default_engine_url db an acc
        (.response 200 (.value did)) (.response 404 b) byId =
      .error (.interfaceError
        ("Unable to retrieve default engine endpoint: " ++
          PyExc.render (.httpStatusError 404) ++ "."))) := by
  refine ⟨?_, ?_, ?_, ?_⟩
  · intro did edges byId hfilter
    simp [_get_database_default_engine_url, _get_database_default_engine_url_attempt,
      hacc, awaitGet, raise_for_status, jsonField, hfilter, dbDefaultCatch,
      Bind.bind, Except.bind]
  · intro did edges b rest ep hfilter
    simp [_get_database_default_engine_url, _get_database_default_engine_url_attempt,
      _get_engine_endpoint, hacc, awaitGet, raise_for_status, jsonField, hfilter,
      dbDefaultCatch, Bind.bind, Except.bind]
  · intro byDb byBind byId e hatt hcaught
    rw [_get_database_default_engine_url, hatt]
    cases e <;> simp_all [caught_by_db_default, dbDefaultCatch]
  · intro did b byId
    simp [_get_database_default_engine_url, _get_database_default_engine_url_attempt,
      hacc, awaitGet, raise_for_status, jsonField, dbDefaultCatch,
      Bind.bind, Except.bind]

/-- C3 witness: the zero-bindings arm and the one-binding arm at concrete
inputs. -/
theorem db_default_engine_error_mapping_witness :
    account_id (.response 200 (.value "aid")) "a" = .ok "aid" ∧
    ([(⟨false, 3⟩ : BindingNode)].filter (fun b => b.engine_is_default) = []) ∧
    _get_database_default_engine_url "db" "a" (.response 200 (.value "aid"))
      (.response 200 (.value 7)) (.response 200 (.value [⟨false, 3⟩]))
      (.response 200 (.value "ep")) =
      .error (.fireboltDatabaseError ("Database " ++ "db" ++ " has no default engines")) :=
  ⟨by decide, by decide,
    (db_default_engine_error_mapping "db" "a" "aid"
      (.response 200 (.value "aid")) (by decide)).1 7 [⟨false, 3⟩]
      (.response 200 (.value "ep")) (by decide)⟩

theorem cursor_close_tracked (s : ConnSt) (a : Nat) :
    (cursor_close s a).tracked = s.tracked.erase a := rfl

theorem cursor_close_created (s : ConnSt) (a : Nat) :
    (cursor_close s a).created = s.created.map
      (fun c => if c.cid = a then { c with is_closed := true } else c) := rfl

theorem close_cursors_tracked (l : List Nat) (s : ConnSt) :
    (close_cursors s l).tracked = l.foldl (fun t c => t.erase c) s.tracked := by
  induction l generalizing s with
  | nil => rfl
  | cons a l ih => exact ih (cursor_close s a)

theorem foldl_erase_self {l : List Nat} (h : l.Nodup) :
    l.foldl (fun t c => t.erase c) l = [] := by
  induction l with
  | nil => rfl
  | cons a l ih =>
    show l.foldl (fun t c => t.erase c) ((a :: l).erase a) = []
    rw [List.erase_cons_head]
    exact ih h.of_cons

theorem close_cursors_created_closed (l : List Nat) (s : ConnSt) :
    ∀ c ∈ (close_cursors s l).created,
      c.is_closed = true ∨ (c ∈ s.created ∧ c.cid ∉ l) := by
  induction l generalizing s with
  | nil => intro c hc; exact Or.inr ⟨hc, by simp⟩
  | cons a l ih =>
    intro c hc
    rcases ih (cursor_close s a) c hc with hcl | ⟨hmem, hnl⟩
    · exact Or.inl hcl
    · rw [cursor_close_created] at hmem
      rcases List.mem_map.mp hmem with ⟨c0, hc0, heq⟩
      by_cases hcid : c0.cid = a
      · left
        rw [← heq]
        simp [hcid]
      · right
        have hc0c : c0 = c := by simpa [hcid] using heq
        subst hc0c
        refine ⟨hc0, fun hin => ?_⟩
        rcases List.mem_cons.mp hin with h1 | h2
        · exact hcid h1
        · exact hnl h2

theorem aclose_open_eq (s : ConnSt) (hopen : s.is_closed = false) :
    BaseConnection_aclose s =
      { close_cursors s s.tracked with client_closed := true, is_closed := true } := by
  simp [BaseConnection_aclose, BaseConnection_aclose_tr, hopen]

/-- C1: after close completes on an open connection whose tracked list has
no duplicates and whose open cursors are all tracked (the invariant the
operations maintain), the tracked-cursor list is empty, every cursor ever
created through the connection reports closed, and a subsequent cursor()
call fails with ConnectionClosedError. -/
theorem close_cascade_invariant (s : ConnSt)
    (hopen : s.is_closed = false)
    (hnd : s.tracked.Nodup)
    (hinv : ∀ c ∈ s.created, c.is_closed = false → c.cid ∈ s.tracked) :
    (BaseConnection_aclose s).tracked = [] ∧
    (∀ c ∈ (BaseConnection_aclose s).created, c.is_closed = true) ∧
    BaseConnection_cursor (BaseConnection_aclose s) =
      .error (.connectionClosedError "Unable to create cursor: connection closed") := by
  rw [aclose_open_eq s hopen]
  refine ⟨?_, ?_, ?_⟩
  · show (close_cursors s s.tracked).tracked = []
    rw [close_cursors_tracked]
    exact foldl_erase_self hnd
  · intro c hc
    have hc' : c ∈ (close_cursors s s.tracked).created := hc
    rcases close_cursors_created_closed s.tracked s c hc' with h | ⟨hmem, hnl⟩
    · exact h
    · by_contra hne
      have hfalse : c.is_closed = false := by simpa using hne
      exact hnl (hinv c hmem hfalse)
  · simp [BaseConnection_cursor]

/-- C1 witness: a connection with one open tracked cursor and one cursor
closed earlier. -/
theorem close_cascade_invariant_witness :
    ((⟨2, [⟨0, false⟩, ⟨1, true⟩], [0], false, false⟩ : ConnSt).is_closed = false ∧
      (⟨2, [⟨0, false⟩, ⟨1, true⟩], [0], false, false⟩ : ConnSt).tracked.Nodup) ∧
    ((BaseConnection_aclose ⟨2, [⟨0, false⟩, ⟨1, true⟩], [0], false, false⟩).tracked = [] ∧
      (∀ c ∈ (BaseConnection_aclose ⟨2, [⟨0, false⟩, ⟨1, true⟩], [0], false, false⟩).created,
        c.is_closed = true) ∧
      BaseConnection_cursor
        (BaseConnection_aclose ⟨2, [⟨0, false⟩, ⟨1, true⟩], [0], false, false⟩) =
        .error (.connectionClosedError "Unable to create cursor: connection closed")) :=
  ⟨⟨by decide, by decide⟩,
    close_cascade_invariant ⟨2, [⟨0, false⟩, ⟨1, true⟩], [0], false, false⟩
      (by decide) (by decide) (by decide)⟩

/-- C4: closing a connection holding a cursor that is concurrently already
closed still succeeds silently — the close loop runs to completion, the
client is torn down, the tracked list is emptied and every tracked cursor
(the already-closed one included) ends closed.  In this model `cursor.close`
is infallible (per its contract it never raises on an already-closed
cursor), so no cursor close can abort the loop. -/
theorem aclose_tolerates_closed_cursor (s : ConnSt) (cid : Nat)
    (hopen : s.is_closed = false)
    (hmem : cid ∈ s.tracked)
    (halready : ∀ c ∈ s.created, c.cid = cid → c.is_closed = true)
    (hnd : s.tracked.Nodup) :
    (BaseConnection_aclose s).client_closed = true ∧
    (BaseConnection_aclose s).is_closed = true ∧
    (BaseConnection_aclose s).tracked = [] ∧
    (∀ d ∈ s.tracked, ∀ c ∈ (BaseConnection_aclose s).created,
      c.cid = d → c.is_closed = true) := by
  rw [aclose_open_eq s hopen]
  refine ⟨rfl, rfl, ?_, ?_⟩
  · show (close_cursors s s.tracked).tracked = []
    rw [close_cursors_tracked]
    exact foldl_erase_self hnd
  · intro d hd c hc hcid
    rcases close_cursors_created_closed s.tracked s c hc with h | ⟨_, hnl⟩
    · exact h
    · exact absurd (hcid ▸ hd) hnl

/-- C4 witness: cursor 0 is tracked but already closed; cursor 1 is open;
close still completes and closes everything. -/
theorem aclose_tolerates_closed_cursor_witness :
    ((⟨2, [⟨0, true⟩, ⟨1, false⟩], [0, 1], false, false⟩ : ConnSt).is_closed = false ∧
      0 ∈ (⟨2, [⟨0, true⟩, ⟨1, false⟩], [0, 1], false, false⟩ : ConnSt).tracked) ∧
    ((BaseConnection_aclose ⟨2, [⟨0, true⟩, ⟨1, false⟩], [0, 1], false, false⟩).client_closed = true ∧
      (BaseConnection_aclose ⟨2, [⟨0, true⟩, ⟨1, false⟩], [0, 1], false, false⟩).is_closed = true ∧
      (BaseConnection_aclose ⟨2, [⟨0, true⟩, ⟨1, false⟩], [0, 1], false, false⟩).tracked = [] ∧
      (∀ d ∈ (⟨2, [⟨0, true⟩, ⟨1, false⟩], [0, 1], false, false⟩ : ConnSt).tracked,
        ∀ c ∈ (BaseConnection_aclose ⟨2, [⟨0, true⟩, ⟨1, false⟩], [0, 1], false, false⟩).created,
        c.cid = d → c.is_closed = true)) :=
  ⟨⟨by decide, by decide⟩,
    aclose_tolerates_closed_cursor ⟨2, [⟨0, true⟩, ⟨1, false⟩], [0, 1], false, false⟩ 0
      (by decide) (by decide) (by decide) (by decide)⟩

/-- C7: closing an already-closed connection is a no-op with no error and
no side effects: after any close, a second close returns the state
unchanged and emits an empty effect trace — no cursor closes, no client
teardown, no state change. -/
theorem aclose_idempotent (s : ConnSt) :
    BaseConnection_aclose_tr (BaseConnection_aclose s) = (BaseConnection_aclose s, []) := by
  have h : (BaseConnection_aclose s).is_closed = true := by
    cases hb : s.is_closed <;>
      simp [BaseConnection_aclose, BaseConnection_aclose_tr, hb]
  simp [BaseConnection_aclose_tr, h]

/-- C7 witness: second close of a concrete connection is a silent no-op. -/
theorem aclose_idempotent_witness :
    BaseConnection_aclose_tr (BaseConnection_aclose ⟨1, [⟨0, false⟩], [0], false, false⟩) =
      (BaseConnection_aclose ⟨1, [⟨0, false⟩], [0], false, false⟩, []) :=
  aclose_idempotent ⟨1, [⟨0, false⟩], [0], false, false⟩

/-- C8: the flag is indeed flipped last, but that does not close the race
the spec (and the code's own comment about a held closing lock) claims it
closes: a cursor() call interleaved at the await of the client teardown —
after the snapshot, before the flag flip — registers a cursor that close
never visits.  The run below ends with the connection closed while cursor 1
is tracked and still open. -/
theorem aclose_cursor_race_escapes_close :
    aclose_raced_by_cursor ⟨1, [⟨0, false⟩], [0], false, false⟩ =
      .ok (1, ⟨2, [⟨0, true⟩, ⟨1, false⟩], [1], true, true⟩) ∧
    (⟨2, [⟨0, true⟩, ⟨1, false⟩], [1], true, true⟩ : ConnSt).is_closed = true ∧
    CursorSt.mk 1 false ∈ (⟨2, [⟨0, true⟩, ⟨1, false⟩], [1], true, true⟩ : ConnSt).created ∧
    1 ∈ (⟨2, [⟨0, true⟩, ⟨1, false⟩], [1], true, true⟩ : ConnSt).tracked := by decide

theorem store_read_after_write (st : TokenStore) (ident : String) (t : Token) :
    (st.write ident t).read ident = some t := by
  simp [TokenStore.write, TokenStore.read, List.find?]

/-- C9: token-cache round trip.  With caching enabled and no adoptable
(non-expired) record in the store, a successful auth exchange returns a
token that subsequent requests use, writes it to the persistent store, and
reading the store back with the same credential identity yields exactly
that token.  With caching disabled the store is returned untouched for
every prior store content — a pre-existing stale record is neither
overwritten nor cleared. -/
theorem token_cache_round_trip (ident v : String) (now margin ttl : Nat)
    (store : TokenStore)
    (hstale : ∀ t, store.read ident = some t → t.expires_at ≤ now + margin) :
    (get_token ⟨ident, true, none⟩ now margin store (.success v ttl) =
      .ok (v, ⟨ident, true, some ⟨v, now + ttl⟩⟩, store.write ident ⟨v, now + ttl⟩) ∧
      (store.write ident ⟨v, now + ttl⟩).read ident = some ⟨v, now + ttl⟩) ∧
    (∀ store2 : TokenStore,
      get_token ⟨ident, false, none⟩ now margin store2 (.success v ttl) =
        .ok (v, ⟨ident, false, some ⟨v, now + ttl⟩⟩, store2)) := by
  constructor
  · constructor
    · cases hr : store.read ident with
      | none =>
        simp [get_token, auth_refresh, hr, auth_refresh.auth_exchange_step]
      | some t =>
        have hle := hstale t hr
        simp [get_token, auth_refresh, hr, auth_refresh.auth_exchange_step,
          Nat.not_lt.mpr hle]
    · exact store_read_after_write store ident ⟨v, now + ttl⟩
  · intro store2
    simp [get_token, auth_refresh, auth_refresh.auth_exchange_step]

/-- C9 witness: enabled caching against an empty store populates it;
disabled caching against a store holding a stale record leaves that exact
record in place. -/
theorem token_cache_round_trip_witness :
    (get_token ⟨"id", true, none⟩ 10 0 ⟨[]⟩ (.success "tok" 90) =
      .ok ("tok", ⟨"id", true, some ⟨"tok", 10 + 90⟩⟩,
        TokenStore.write ⟨[]⟩ "id" ⟨"tok", 10 + 90⟩) ∧
      (TokenStore.write ⟨[]⟩ "id" ⟨"tok", 10 + 90⟩).read "id" = some ⟨"tok", 10 + 90⟩) ∧
    get_token ⟨"id", false, none⟩ 10 0 ⟨[("id", ⟨"stale", 3⟩)]⟩ (.success "tok" 90) =
      .ok ("tok", ⟨"id", false, some ⟨"tok", 10 + 90⟩⟩, ⟨[("id", ⟨"stale", 3⟩)]⟩) :=
  ⟨(token_cache_round_trip "id" "tok" 10 0 90 ⟨[]⟩
      (by intro t h; simp [TokenStore.read] at h)).1,
    (token_cache_round_trip "id" "tok" 10 0 90 ⟨[]⟩
      (by intro t h; simp [TokenStore.read] at h)).2 ⟨[("id", ⟨"stale", 3⟩)]⟩⟩
